import Mathlib

/-!
Verification of the query-orchestration subsystem of the RAG-with-semantic-cache
repository: the semantic cache with its temporal guard
(src/components/semantic_cache.py), the agentic router (src/components/router.py)
and the orchestrator with its answer-generation fallback chain
(src/pipeline/rag_pipeline.py).

Python strings are modelled as lists of characters; the Supabase backend is
modelled as a record of fallible operations over an abstract state, with a
concrete honest instantiation over a list of cache rows mirroring the
cache_entries table and the match_cache_entry SQL function from
src/setup_supabase.py.
-/

namespace Rag

/-- Python strings, modelled as lists of characters. -/
abbrev Str := List Char

/-- Coerce a Lean string literal into the model. -/
def str (s : String) : Str := s.data

/-- Python str.lower (ASCII fragment, sufficient for the fixed keyword sets). -/
def lower (s : Str) : Str := s.map Char.toLower

/-- Python str.strip: drop leading and trailing whitespace. -/
def strip (s : Str) : Str :=
  ((s.dropWhile Char.isWhitespace).reverse.dropWhile Char.isWhitespace).reverse

/-- Python substring test, needle ∈ hay (the in operator). -/
def containsSub (hay needle : Str) : Bool :=
  match hay with
  | [] => needle.isPrefixOf []
  | _ :: t => needle.isPrefixOf hay || containsSub t needle

/-- Python str.startswith. -/
def startsWith (s p : Str) : Bool := p.isPrefixOf s

/-- Python str.split on a single separator character: split "" gives [""],
and adjacent separators give empty fields. -/
def splitOnChar (sep : Char) : Str → List Str
  | [] => [[]]
  | c :: rest =>
    match splitOnChar sep rest with
    | [] => [[]]
    | s :: ss => if c = sep then [] :: s :: ss else (c :: s) :: ss

/-- Python non-overlapping substring count, fuel-based recursion so that it
reduces in the kernel; every step consumes at least one character of the hay,
so fuel = hay.length is enough. -/
def countOccAux : Nat → Str → Str → Nat
  | 0, _, _ => 0
  | fuel + 1, hay, needle =>
    match hay with
    | [] => 0
    | _ :: t =>
      if needle.isPrefixOf hay then
        1 + countOccAux fuel (t.drop (needle.length - 1)) needle
      else countOccAux fuel t needle

/-- Python non-overlapping substring count (str.count) for a nonempty needle. -/
def countOcc (hay needle : Str) : Nat := countOccAux hay.length hay needle

/-- Word characters of the regex \b boundary (ASCII fragment of \w). -/
def isWordChar (c : Char) : Bool := c.isAlphanum || c = '_'

/-- Decimal digit string of a positive natural number, fuel-based so that it
reduces in the kernel; fuel = n is always enough since n / 10 < n. -/
def natDigitsAux : Nat → Nat → Str
  | 0, _ => []
  | _ + 1, 0 => []
  | fuel + 1, n + 1 =>
    natDigitsAux fuel ((n + 1) / 10) ++ [Char.ofNat (48 + (n + 1) % 10)]

/-- Python str(n) for a natural number. -/
def natDigits (n : Nat) : Str := if n = 0 then ['0'] else natDigitsAux n n

/-- Numeric value of a digit string, Python int(s) on the matched year tokens. -/
def digitsToNat (s : Str) : Nat := s.foldl (fun a c => a * 10 + (c.toNat - 48)) 0

/-- Does a 4-character window start the year pattern (19\d\d|20\d\d)? -/
def yearWindow (c1 c2 c3 c4 : Char) : Bool :=
  ((c1 = '1' && c2 = '9') || (c1 = '2' && c2 = '0')) && c3.isDigit && c4.isDigit

/-- Scanner for re.findall over the pattern \b(19\d\d|20\d\d)\b: prev is the
character just before the scan position (none at the start of the string);
matches are found left to right and scanning resumes after each match. -/
def yearsAux (prev : Option Char) : Str → List Str
  | c1 :: c2 :: c3 :: c4 :: rest =>
    let leftOk : Bool := match prev with | none => true | some p => !(isWordChar p)
    let rightOk : Bool := match rest with | [] => true | r :: _ => !(isWordChar r)
    if leftOk && rightOk && yearWindow c1 c2 c3 c4 then
      [c1, c2, c3, c4] :: yearsAux (some c4) rest
    else
      yearsAux (some c1) (c2 :: c3 :: c4 :: rest)
  | c :: rest => yearsAux (some c) rest
  | [] => []

/-- re.findall of the year pattern \b(19\d\d|20\d\d)\b over a string
(semantic_cache.py lines 76 and 95, rag_pipeline.py line 254). -/
def findYears (s : Str) : List Str := yearsAux none s

/-- Equality of the Python sets built from two year lists. -/
def sameYearSet (a b : List Str) : Prop := (∀ x ∈ a, x ∈ b) ∧ (∀ x ∈ b, x ∈ a)

instance (a b : List Str) : Decidable (sameYearSet a b) := by
  unfold sameYearSet; infer_instance

/-- Ambient state read by the code through datetime.now(): the calendar year
plus the rest of the clock reading (time of day and so on), which the router
never uses. -/
structure Env where
  year : Nat
  tick : Nat

/- ----------------------------------------------------------------
AgenticRouter (src/components/router.py)
---------------------------------------------------------------- -/

/-- The fixed local-keyword set of AgenticRouter.__init__. -/
def localKeywords : List Str :=
  [str "company", str "revenue", str "profit", str "earnings", str "financial",
   str "balance sheet", str "income statement", str "cash flow", str "assets",
   str "liabilities", str "equity", str "sec filing", str "10-k",
   str "annual report", str "quarterly", str "fiscal year"]

/-- The fixed web-keyword set of AgenticRouter.__init__. -/
def webKeywords : List Str :=
  [str "latest", str "recent", str "current", str "today", str "news",
   str "market cap", str "stock price", str "breaking", str "announcement",
   str "update"]

/-- sum(1 for keyword in keywords if keyword in query_lower): each keyword
contributes one point when it occurs as a substring, regardless of how many
times it occurs. -/
def keywordScore (keywords : List Str) (queryLower : Str) : Nat :=
  (keywords.filter (fun k => containsSub queryLower k)).length

/-- The flat +2 web bonus for explicit recency terms (router.py line 30). -/
def recencyBonus (queryLower : Str) : Nat :=
  if [str "latest", str "current", str "today", str "recent"].any
      (fun t => containsSub queryLower t) then 2 else 0

/-- The +3 web bonus when str(current_year) or str(current_year + 1) occurs as
a substring of the lowercased query (router.py line 36). -/
def yearBonus (queryLower : Str) (currentYear : Nat) : Nat :=
  if containsSub queryLower (natDigits currentYear)
     || containsSub queryLower (natDigits (currentYear + 1)) then 3 else 0

/-- AgenticRouter.route_query: lowercase the query, score both keyword sets,
add the recency and year bonuses to the web score, and return web_search
exactly when the web score strictly exceeds the local score. -/
def route_query (query : Str) (env : Env) : Str :=
  let queryLower := lower query
  let localScore := keywordScore localKeywords queryLower
  let webScore := keywordScore webKeywords queryLower + recencyBonus queryLower
      + yearBonus queryLower env.year
  if localScore < webScore then str "web_search" else str "local_search"

example : route_query (str "Apple revenue 2022") ⟨2026, 0⟩ = str "local_search" := by decide
example : route_query (str "latest news on Apple") ⟨2026, 0⟩ = str "web_search" := by decide
example : route_query (str "2026") ⟨2026, 0⟩ = str "web_search" := by decide
example : findYears (str "Apple revenue 2022 vs 2023") = [str "2022", str "2023"] := by decide
example : findYears (str "x20261") = [] := by decide
example : findYears (str "year 18999 and 2105") = [] := by decide

/- ----------------------------------------------------------------
SemanticCache (src/components/semantic_cache.py), over a Supabase backend.
The backend is a record of fallible operations (every supabase .execute()
call can raise; an exception is modelled as Except.error) over an abstract
state sigma; E is the embedding type of the external encoder.
---------------------------------------------------------------- -/

/-- A row of the cache_entries table (setup_supabase.py). -/
structure CacheRec (E : Type) where
  queryHash : Str
  query : Str
  queryEmbedding : E
  response : Str
  timestamp : Nat
  hitCount : Int

/-- A row returned by the match_cache_entry SQL function. -/
structure MatchRec where
  queryHash : Str
  query : Str
  response : Str
  hitCount : Int
  similarity : ℚ

/-- The Supabase operations SemanticCache performs; each may fail. -/
structure Backend (E : Type) (σ : Type) where
  matchCacheEntry : E → ℚ → σ → Except Str (Option MatchRec × σ)
  updateHitCount : Str → Int → σ → Except Str σ
  upsert : CacheRec E → σ → Except Str σ
  selectAll : σ → Except Str (List (CacheRec E) × σ)

namespace SemanticCache

/-- The query hash of SemanticCache._get_query_hash: a hash function (md5 is
kept abstract) applied to query.lower().strip(). -/
def queryHashOf (hash : Str → Str) (q : Str) : Str := hash (strip (lower q))

/-- SemanticCache.get: embed the query, run the similarity lookup, apply the
temporal year guard to a candidate, bump its hit count, and return the stored
response. The two backend calls are not wrapped in any exception handler in
the source, so their errors propagate. -/
def get {E σ : Type} (B : Backend E σ) (encode : Str → E) (thr : ℚ)
    (query : Str) (s : σ) : Except Str ((Option Str × Bool) × σ) :=
  let emb := encode query
  let yearsInQuery := findYears query
  match B.matchCacheEntry emb thr s with
  | .error e => .error e
  | .ok (none, s') => .ok ((none, false), s')
  | .ok (some m, s') =>
    let yearsInCached := findYears m.query
    if yearsInQuery ≠ [] ∧ yearsInCached ≠ [] ∧
        ¬ sameYearSet yearsInQuery yearsInCached then
      .ok ((none, false), s')
    else if (yearsInQuery ≠ [] ∧ yearsInCached = []) ∨
        (yearsInQuery = [] ∧ yearsInCached ≠ []) then
      .ok ((none, false), s')
    else
      match B.updateHitCount m.queryHash (m.hitCount + 1) s' with
      | .error e => .error e
      | .ok s'' => .ok ((some m.response, true), s'')

/-- SemanticCache.put: build the record (hit_count 1, current timestamp) and
upsert it; the backend call is not wrapped, so its error propagates. -/
def put {E σ : Type} (B : Backend E σ) (encode : Str → E) (hash : Str → Str)
    (now : Nat) (query response : Str) (s : σ) : Except Str σ :=
  B.upsert
    { queryHash := queryHashOf hash query
      query := query
      queryEmbedding := encode query
      response := response
      timestamp := now
      hitCount := 1 } s

/-- The record returned by SemanticCache.get_stats. -/
structure Stats where
  totalEntries : Nat
  totalHits : Int
  hitRate : ℚ
deriving DecidableEq

/-- SemanticCache.get_stats: select all rows; on an empty table return zeros,
else total_hits = sum of (hit_count - 1) and
hit_rate = total_hits / (total_entries + total_hits) guarded by
total_queries > 0. -/
def get_stats {E σ : Type} (B : Backend E σ) (s : σ) : Except Str (Stats × σ) :=
  match B.selectAll s with
  | .error e => .error e
  | .ok (entries, s') =>
    if entries.isEmpty then
      .ok ({ totalEntries := 0, totalHits := 0, hitRate := 0 }, s')
    else
      let totalEntries := entries.length
      let totalHits := (entries.map (fun r => r.hitCount - 1)).sum
      let totalQueries : Int := totalEntries + totalHits
      .ok ({ totalEntries := totalEntries
             totalHits := totalHits
             hitRate := if 0 < totalQueries
               then (totalHits : ℚ) / (totalQueries : ℚ) else 0 }, s')

end SemanticCache

/- ----------------------------------------------------------------
Honest backend over an in-memory image of the cache_entries table,
mirroring the SQL of setup_supabase.py: match_cache_entry filters rows by
1 - cosine_distance >= threshold, orders by similarity descending and takes
one row (ties broken by the earliest row, a modelling choice the SQL leaves
open); upsert replaces the row with the same query_hash primary key or
appends; the hit-count update rewrites the matching row.
---------------------------------------------------------------- -/

/-- The rows of the cache_entries table. -/
abbrev Store (E : Type) := List (CacheRec E)

/-- Row of the match_cache_entry result set for a given input embedding. -/
def matchEntryRec {E : Type} (sim : E → E → ℚ) (emb : E) (r : CacheRec E) :
    MatchRec :=
  { queryHash := r.queryHash
    query := r.query
    response := r.response
    hitCount := r.hitCount
    similarity := sim r.queryEmbedding emb }

/-- One step of the ORDER BY similarity DESC LIMIT 1 selection: keep the row
seen so far unless the next row is strictly more similar. -/
def bmStep {E : Type} (sim : E → E → ℚ) (emb : E) (acc : Option MatchRec)
    (r : CacheRec E) : Option MatchRec :=
  match acc with
  | none => some (matchEntryRec sim emb r)
  | some m =>
    if m.similarity < sim r.queryEmbedding emb then
      some (matchEntryRec sim emb r)
    else acc

/-- match_cache_entry: best row at or above the similarity threshold. -/
def bestMatch {E : Type} (sim : E → E → ℚ) (store : Store E) (emb : E)
    (thr : ℚ) : Option MatchRec :=
  (store.filter (fun r => thr ≤ sim r.queryEmbedding emb)).foldl
    (bmStep sim emb) none

/-- Upsert by the query_hash primary key: overwrite in place or append. -/
def upsertStore {E : Type} (rec : CacheRec E) : Store E → Store E
  | [] => [rec]
  | r :: rest =>
    if r.queryHash = rec.queryHash then rec :: rest
    else r :: upsertStore rec rest

/-- UPDATE cache_entries SET hit_count = hc WHERE query_hash = qh. -/
def updateHitStore {E : Type} (qh : Str) (hc : Int) (s : Store E) : Store E :=
  s.map (fun r => if r.queryHash = qh then { r with hitCount := hc } else r)

/-- The backend with every operation succeeding on the in-memory table. -/
def honestBackend {E : Type} (sim : E → E → ℚ) : Backend E (Store E) :=
  { matchCacheEntry := fun emb thr s => .ok (bestMatch sim s emb thr, s)
    updateHitCount := fun qh hc s => .ok (updateHitStore qh hc s)
    upsert := fun r s => .ok (upsertStore r s)
    selectAll := fun s => .ok (s, s) }

/-- Backend stub whose similarity lookup always offers one fixed candidate and
whose other operations succeed; it exercises the temporal guard at concrete
inputs. -/
def stubBackend (m : MatchRec) : Backend Unit Unit :=
  { matchCacheEntry := fun _ _ _ => .ok (some m, ())
    updateHitCount := fun _ _ _ => .ok ()
    upsert := fun _ _ => .ok ()
    selectAll := fun _ => .ok ([], ()) }

/-- Backend whose similarity lookup raises, modelling an unreachable cache
service at read time. -/
def failingMatchBackend (e : Str) : Backend Unit Unit :=
  { matchCacheEntry := fun _ _ _ => .error e
    updateHitCount := fun _ _ _ => .ok ()
    upsert := fun _ _ => .ok ()
    selectAll := fun _ => .ok ([], ()) }

/-- Backend whose similarity lookup offers a candidate but whose hit-count
update raises, modelling a cache service lost between the read and the
update. -/
def failingUpdateBackend (m : MatchRec) (e : Str) : Backend Unit Unit :=
  { matchCacheEntry := fun _ _ _ => .ok (some m, ())
    updateHitCount := fun _ _ _ => .error e
    upsert := fun _ _ => .ok ()
    selectAll := fun _ => .ok ([], ()) }

/-- Backend that misses on lookup and raises on upsert, modelling a cache
service lost before the write-back. -/
def failingUpsertBackend (e : Str) : Backend Unit Unit :=
  { matchCacheEntry := fun _ _ _ => .ok (none, ())
    updateHitCount := fun _ _ _ => .ok ()
    upsert := fun _ _ => .error e
    selectAll := fun _ => .ok ([], ()) }

/-- Backend on which every lookup misses and every operation succeeds. -/
def missBackend : Backend Unit Unit :=
  { matchCacheEntry := fun _ _ _ => .ok (none, ())
    updateHitCount := fun _ _ _ => .ok ()
    upsert := fun _ _ => .ok ()
    selectAll := fun _ => .ok ([], ()) }

/- ----------------------------------------------------------------
RAGPipeline (src/pipeline/rag_pipeline.py). The generation provider tiers
(Responses API, then Chat Completions API) are external collaborators taking
the query and assembled context; the vector store search and the web searcher
are likewise external and enter as function parameters.
---------------------------------------------------------------- -/

/-- A retrieved document; the pipeline reads only content and the title and
company metadata keys, so the metadata mapping is restricted to those. -/
structure Doc where
  content : Str
  titleMeta : Option Str
  companyMeta : Option Str

/-- doc.metadata.get of title with the company-or-Unknown default chain
(rag_pipeline.py line 90). -/
def docTitle (d : Doc) : Str :=
  match d.titleMeta with
  | some t => t
  | none => match d.companyMeta with
    | some c => c
    | none => str "Unknown"

/-- The financial signal terms of _generate_enhanced_mock_answer line 193. -/
def signalTerms : List Str :=
  [str "$", str "%", str "billion", str "million", str "revenue", str "sales",
   str "growth", str "increase", str "decrease"]

/-- The fact-collecting loop of _generate_enhanced_mock_answer lines 187-194:
keep the nonempty context lines that do not start with Document or
Web Information and whose lowercasing contains a signal term, stripped. -/
def relevantFacts (context : Str) : List Str :=
  ((splitOnChar '\n' context).filter (fun line =>
      line ≠ [] && !(startsWith line (str "Document"))
        && !(startsWith line (str "Web Information"))
        && signalTerms.any (fun t => containsSub (lower line) t))).map strip

/-- RAGPipeline._generate_enhanced_mock_answer: intro line, up to the first 3
relevant facts numbered from 1, and the degraded-response note, joined by
newlines. -/
def enhancedMockAnswer (query context : Str) : Str :=
  let facts := relevantFacts context
  let intro := str "Based on the provided information, I can address your question about '"
      ++ query ++ str "'."
  let factLines :=
    if facts.isEmpty then []
    else (str "\nKey facts from the documents:") ::
      ((facts.take 3).enum.map (fun p =>
        natDigits (p.1 + 1) ++ str ". " ++ p.2))
  let note := str "\nNote: This is a generated response based on the retrieved documents. For more detailed analysis, please ensure your OpenAI API key is correctly configured."
  List.intercalate (str "\n") ([intro] ++ factLines ++ [note])

/-- RAGPipeline._generate_openai_answer: with no API key configured (Python
falsy key, modelled as the empty string) use the heuristic answer; otherwise
try the primary tier, on its failure the secondary tier, and on failure of
both the heuristic answer. Each provider tier takes the query and context
(the prompt it is handed is a pure function of those two). -/
def generateOpenaiAnswer (tier1 tier2 : Str → Str → Except Str Str)
    (apiKey : Str) (query context : Str) : Str :=
  if apiKey = [] then enhancedMockAnswer query context
  else
    match tier1 query context with
    | .ok a => strip a
    | .error _ =>
      match tier2 query context with
      | .ok a => strip a
      | .error _ => enhancedMockAnswer query context

/-- The context block of _generate_answer lines 87-96: one Document line per
retrieved candidate, an optional Web Information line, joined by blank
lines. -/
def buildContext (contextDocs : List (Doc × ℚ)) (webResults : Str) : Str :=
  let parts := contextDocs.map (fun p =>
    str "Document (" ++ docTitle p.1 ++ str "): " ++ p.1.content)
  let parts := if webResults ≠ [] then
      parts ++ [str "Web Information: " ++ webResults]
    else parts
  List.intercalate (str "\n\n") parts

/-- RAGPipeline._generate_answer: empty context short-circuits to the fixed
no-information message; otherwise _generate_openai_answer. The except branch
around that call in the source is unreachable because _generate_openai_answer
already catches every provider error internally. -/
def generateAnswer (tier1 tier2 : Str → Str → Except Str Str) (apiKey : Str)
    (query : Str) (contextDocs : List (Doc × ℚ)) (webResults : Str) : Str :=
  let context := buildContext contextDocs webResults
  if context = [] then
    str "I couldn't find relevant information to answer your question."
  else generateOpenaiAnswer tier1 tier2 apiKey query context

/-- any(score > 0.7 for _, score in retrieved_docs), with the empty-list
guard of rag_pipeline.py lines 247-250 (any on [] is already false). -/
def hasRelevantDocs (docs : List (Doc × ℚ)) : Bool :=
  docs.any (fun p => decide ((7 : ℚ) / 10 < p.2))

/-- Years found in the query contain one at least current_year - 1
(rag_pipeline.py lines 252-262); the empty-findall guard is again absorbed
into any. -/
def containsRecentYear (query : Str) (currentYear : Nat) : Bool :=
  (findYears query).any (fun y => decide (currentYear - 1 ≤ digitsToNat y))

/-- The web-search trigger of rag_pipeline.py lines 265-268. -/
def shouldUseWebSearch (allowWeb : Bool) (routing : Str) (hasRel : Bool)
    (recent : Bool) : Bool :=
  allowWeb && (decide (routing = str "web_search") || (!hasRel && recent))

/-- The response envelope of RAGPipeline.search (response_time and the
cache_debug echo of the query are not modelled; an absent web_results key is
none). -/
structure Envelope where
  answer : Option Str
  sources : List (Str × ℚ)
  cacheHit : Bool
  routingDecision : Str
  webSearchUsed : Bool
  webResults : Option Str

/-- RAGPipeline.search: cache lookup (short-circuit on hit), routing, local
retrieval, conditional web search, answer generation, cache write, envelope.
The cache get and put calls are not wrapped in any exception handler in the
source, so a backend error propagates out of search. -/
def searchPipeline {E σ : Type} (B : Backend E σ) (encode : Str → E)
    (hash : Str → Str) (thr : ℚ) (now : Nat)
    (retrieve : Str → List (Doc × ℚ)) (webFn : Str → Str)
    (tier1 tier2 : Str → Str → Except Str Str) (apiKey : Str)
    (env : Env) (query : Str) (allowWeb : Bool) (s : σ) :
    Except Str (Envelope × σ) :=
  match SemanticCache.get B encode thr query s with
  | .error e => .error e
  | .ok ((cachedResponse, true), s') =>
    .ok ({ answer := cachedResponse
           sources := []
           cacheHit := true
           routingDecision := str "cache"
           webSearchUsed := false
           webResults := none }, s')
  | .ok ((_, false), s') =>
    let routingDecision := route_query query env
    let retrievedDocs := retrieve query
    let useWeb := shouldUseWebSearch allowWeb routingDecision
        (hasRelevantDocs retrievedDocs) (containsRecentYear query env.year)
    let webResults := if useWeb then webFn query else []
    let answer := generateAnswer tier1 tier2 apiKey query retrievedDocs webResults
    match SemanticCache.put B encode hash now query answer s' with
    | .error e => .error e
    | .ok s'' =>
      .ok ({ answer := some answer
             sources := retrievedDocs.map (fun p =>
               (p.1.content.take 200 ++ str "...", p.2))
             cacheHit := false
             routingDecision := routingDecision
             webSearchUsed := webResults ≠ []
             webResults := if webResults ≠ [] then some webResults else none },
           s'')

/- ----------------------------------------------------------------
Claim-following router, for comparison with the code (claim C8). It scores
by the number of substring occurrences of each keyword and awards the +3
bonus only when the current or next calendar year occurs as a 4-digit
year token of the query.
---------------------------------------------------------------- -/

/-- Router as claim C8 words it: counts substring occurrences of each term
(multiplicity included) and requires the year to occur as a 4-digit token. -/
def route_query_claim (query : Str) (env : Env) : Str :=
  let queryLower := lower query
  let localScore := (localKeywords.map (fun k => countOcc queryLower k)).sum
  let webScore := (webKeywords.map (fun k => countOcc queryLower k)).sum
  let webScore := webScore +
    (if [str "latest", str "current", str "today", str "recent"].any
        (fun t => containsSub queryLower t) then 2 else 0)
  let webScore := webScore +
    (if (findYears queryLower).any (fun y =>
        y = natDigits env.year ∨ y = natDigits (env.year + 1)) then 3 else 0)
  if localScore < webScore then str "web_search" else str "local_search"

/-- Fact scan as claim C5 words it: every context line containing a financial
signal token qualifies as a key fact. -/
def relevantFactsClaim (context : Str) : List Str :=
  (splitOnChar '\n' context).filter (fun line =>
    signalTerms.any (fun t => containsSub (lower line) t))

/- ----------------------------------------------------------------
Theorems
---------------------------------------------------------------- -/

/-- The two-way routing decision, characterized for any pair of scores. -/
theorem routeDecision (L W : Nat) :
    ((if L < W then str "web_search" else str "local_search") =
        str "web_search" ↔ L < W) ∧
    ((if L < W then str "web_search" else str "local_search") =
        str "web_search" ∨
      (if L < W then str "web_search" else str "local_search") =
        str "local_search") := by
  by_cases h : L < W
  · simp [h]
  · rw [if_neg h]
    exact ⟨⟨fun hc => absurd hc (by decide), fun hc => absurd hc h⟩, Or.inr rfl⟩

/-- Claim C7, counterexample: route_query is not a function of the query text
alone; the same query routes differently when the ambient clock year differs,
because the +3 bonus compares the query against str(current_year). -/
theorem route_query_reads_the_clock :
    route_query (str "2030") ⟨2030, 0⟩ ≠ route_query (str "2030") ⟨2024, 0⟩ := by
  decide

/-- Claim C7 (amended): the router is deterministic given the query text and
the current calendar year: its output does not depend on any other part of
the ambient clock state, so two invocations in the same calendar year with
identical input yield identical output. -/
theorem route_query_function_of_text_and_year (q : Str) (e₁ e₂ : Env)
    (h : e₁.year = e₂.year) : route_query q e₁ = route_query q e₂ := by
  unfold route_query
  rw [h]

/-- Witness for the amended claim C7 at a concrete query and two clock states
sharing the calendar year. -/
theorem route_query_function_of_text_and_year_witness :
    route_query (str "Apple revenue") ⟨2026, 0⟩ =
      route_query (str "Apple revenue") ⟨2026, 7⟩ :=
  route_query_function_of_text_and_year (str "Apple revenue") ⟨2026, 0⟩
    ⟨2026, 7⟩ rfl

/-- Claim C8, counterexample: the code differs from the claimed scoring in
two places. With the clock year 2026, the query x20261 contains 2026 only as
a substring, not as a 4-digit token, yet the code still routes it to
web_search; and repeated keywords are counted once, not per occurrence, so a
query with revenue twice and news three times routes local while the claimed
occurrence counting would route it to web_search. -/
theorem route_query_differs_from_claimed_scoring :
    route_query (str "x20261") ⟨2026, 0⟩ = str "web_search" ∧
    route_query_claim (str "x20261") ⟨2026, 0⟩ = str "local_search" ∧
    route_query (str "revenue revenue news news news") ⟨2026, 0⟩ =
      str "local_search" ∧
    route_query_claim (str "revenue revenue news news news") ⟨2026, 0⟩ =
      str "web_search" := by
  decide

/-- Claim C8 (amended): the router lowercases the query, scores each keyword
set by the number of its terms that occur as substrings (each term counted at
most once, whatever its multiplicity), adds a flat +2 to the web score when
any of latest, current, today, recent occurs, adds +3 when the decimal string
of the current or the next calendar year occurs as a substring (a token
boundary is not required), and returns web_search exactly when the web score
strictly exceeds the local score, local_search otherwise. -/
theorem route_query_scoring (q : Str) (e : Env) :
    (route_query q e = str "web_search" ↔
      (localKeywords.countP (fun k => containsSub (lower q) k) <
        webKeywords.countP (fun k => containsSub (lower q) k) +
          (if [str "latest", str "current", str "today", str "recent"].any
              (fun t => containsSub (lower q) t) then 2 else 0) +
          (if containsSub (lower q) (natDigits e.year)
              || containsSub (lower q) (natDigits (e.year + 1))
            then 3 else 0))) ∧
    (route_query q e = str "web_search" ∨
      route_query q e = str "local_search") := by
  unfold route_query keywordScore recencyBonus yearBonus
  simp only [List.countP_eq_length_filter]
  exact routeDecision _ _

theorem sameYearSet_refl (a : List Str) : sameYearSet a a :=
  ⟨fun _ hx => hx, fun _ hx => hx⟩

theorem sameYearSet_empty_iff {a b : List Str} (h : sameYearSet a b) :
    a = [] ↔ b = [] := by
  constructor <;> intro h0
  · rw [List.eq_nil_iff_forall_not_mem]
    intro x hx
    have := h.2 x hx
    rw [h0] at this
    cases this
  · rw [List.eq_nil_iff_forall_not_mem]
    intro x hx
    have := h.1 x hx
    rw [h0] at this
    cases this

/-- Claim C2: whenever the threshold-filtered similarity lookup offers a
candidate (and persisting the hit count succeeds), get returns a hit carrying
the candidate's stored response exactly when the year-token sets of the
incoming and the cached query are equal (both empty counting as equal); on
any mismatch of the year sets it returns (none, false) regardless of the
candidate's similarity. -/
theorem get_temporal_guard {E σ : Type} (B : Backend E σ) (encode : Str → E)
    (thr : ℚ) (q : Str) (m : MatchRec) (s s' : σ)
    (hmatch : B.matchCacheEntry (encode q) thr s = Except.ok (some m, s'))
    (hupd : ∀ qh hc s₀, ∃ s₁, B.updateHitCount qh hc s₀ = Except.ok s₁) :
    ((∃ s₂, SemanticCache.get B encode thr q s =
        Except.ok ((some m.response, true), s₂)) ↔
      sameYearSet (findYears q) (findYears m.query)) ∧
    (¬ sameYearSet (findYears q) (findYears m.query) →
      SemanticCache.get B encode thr q s = Except.ok ((none, false), s')) := by
  simp only [SemanticCache.get]
  rw [hmatch]
  dsimp only
  by_cases hsame : sameYearSet (findYears q) (findYears m.query)
  · have hempty := sameYearSet_empty_iff hsame
    have g1 : ¬(findYears q ≠ [] ∧ findYears m.query ≠ [] ∧
        ¬ sameYearSet (findYears q) (findYears m.query)) := by
      rintro ⟨-, -, hn⟩; exact hn hsame
    have g2 : ¬((findYears q ≠ [] ∧ findYears m.query = []) ∨
        (findYears q = [] ∧ findYears m.query ≠ [])) := by
      rintro (⟨h1, h2⟩ | ⟨h1, h2⟩)
      · exact h1 (hempty.mpr h2)
      · exact h2 (hempty.mp h1)
    rw [if_neg g1, if_neg g2]
    obtain ⟨s₁, hs₁⟩ := hupd m.queryHash (m.hitCount + 1) s'
    rw [hs₁]
    exact ⟨iff_of_true ⟨s₁, rfl⟩ hsame, fun hn => absurd hsame hn⟩
  · have hmiss : ∀ t : σ,
        ((∃ s₂, (Except.ok ((none, false), t) :
            Except Str ((Option Str × Bool) × σ)) =
          Except.ok ((some m.response, true), s₂)) ↔
            sameYearSet (findYears q) (findYears m.query)) ∧
        (¬ sameYearSet (findYears q) (findYears m.query) →
          (Except.ok ((none, false), t) :
            Except Str ((Option Str × Bool) × σ)) =
              Except.ok ((none, false), t)) := by
      intro t
      refine ⟨iff_of_false ?_ hsame, fun _ => rfl⟩
      rintro ⟨s₂, he⟩
      simp at he
    by_cases hq0 : findYears q = [] <;> by_cases hc0 : findYears m.query = []
    · have hs : sameYearSet (findYears q) (findYears m.query) := by
        constructor
        · intro x hx; rw [hq0] at hx; cases hx
        · intro x hx; rw [hc0] at hx; cases hx
      exact absurd hs hsame
    · have g1 : ¬(findYears q ≠ [] ∧ findYears m.query ≠ [] ∧
          ¬ sameYearSet (findYears q) (findYears m.query)) := by
        rintro ⟨h, -, -⟩; exact h hq0
      rw [if_neg g1, if_pos (Or.inr ⟨hq0, hc0⟩)]
      exact hmiss s'
    · have g1 : ¬(findYears q ≠ [] ∧ findYears m.query ≠ [] ∧
          ¬ sameYearSet (findYears q) (findYears m.query)) := by
        rintro ⟨-, h, -⟩; exact h hc0
      rw [if_neg g1, if_pos (Or.inl ⟨hq0, hc0⟩)]
      exact hmiss s'
    · rw [if_pos ⟨hq0, hc0, hsame⟩]
      exact hmiss s'

/-- Witness for claim C2: a concrete candidate at similarity 1 whose cached
query carries the same single year token as the incoming query, offered by a
stub backend; the lookup hits and returns the stored response. -/
theorem get_temporal_guard_witness :
    ((∃ s₂, SemanticCache.get
        (stubBackend ⟨str "h", str "Apple revenue 2022", str "A", 1, 1⟩)
        (fun _ => ()) ((49 : ℚ) / 50) (str "Apple revenue 2022") () =
          Except.ok ((some (str "A"), true), s₂)) ↔
      sameYearSet (findYears (str "Apple revenue 2022"))
        (findYears (str "Apple revenue 2022"))) ∧
    (¬ sameYearSet (findYears (str "Apple revenue 2022"))
        (findYears (str "Apple revenue 2022")) →
      SemanticCache.get
        (stubBackend ⟨str "h", str "Apple revenue 2022", str "A", 1, 1⟩)
        (fun _ => ()) ((49 : ℚ) / 50) (str "Apple revenue 2022") () =
          Except.ok ((none, false), ())) :=
  get_temporal_guard _ (fun _ => ()) ((49 : ℚ) / 50) (str "Apple revenue 2022")
    ⟨str "h", str "Apple revenue 2022", str "A", 1, 1⟩ () () rfl
    (fun _ _ _ => ⟨(), rfl⟩)

theorem bmFold_stay {E : Type} (sim : E → E → ℚ) (emb : E) (m : MatchRec)
    (l : List (CacheRec E))
    (h : ∀ r ∈ l, sim r.queryEmbedding emb ≤ m.similarity) :
    l.foldl (bmStep sim emb) (some m) = some m := by
  induction l with
  | nil => rfl
  | cons r t ih =>
    have hstep : bmStep sim emb (some m) r = some m := by
      simp only [bmStep]
      rw [if_neg (not_lt.mpr (h r (List.mem_cons_self r t)))]
    rw [List.foldl_cons, hstep]
    exact ih (fun r' hr' => h r' (List.mem_cons_of_mem r hr'))

theorem bmStep_dominated {E : Type} (sim : E → E → ℚ) (emb : E)
    (rec : CacheRec E) (acc : Option MatchRec)
    (hacc : ∀ m, acc = some m → m.similarity < sim rec.queryEmbedding emb) :
    bmStep sim emb acc rec = some (matchEntryRec sim emb rec) := by
  match acc with
  | none => rfl
  | some m =>
    simp only [bmStep]
    rw [if_pos (hacc m rfl)]

theorem bmFold_upsert {E : Type} (sim : E → E → ℚ) (emb : E) (thr : ℚ)
    (rec : CacheRec E) (hpass : thr ≤ sim rec.queryEmbedding emb)
    (t : List (CacheRec E)) :
    ∀ acc : Option MatchRec,
    (∀ m, acc = some m → m.similarity < sim rec.queryEmbedding emb) →
    (∀ r ∈ t, r.queryHash ≠ rec.queryHash →
      sim r.queryEmbedding emb < sim rec.queryEmbedding emb) →
    (t.map (fun r => r.queryHash)).Nodup →
    ((upsertStore rec t).filter
        (fun r => thr ≤ sim r.queryEmbedding emb)).foldl (bmStep sim emb) acc
      = some (matchEntryRec sim emb rec) := by
  induction t with
  | nil =>
    intro acc hacc _ _
    show ([rec].filter (fun r => thr ≤ sim r.queryEmbedding emb)).foldl
      (bmStep sim emb) acc = _
    rw [List.filter_cons_of_pos (by simpa using hpass), List.filter_nil,
      List.foldl_cons, List.foldl_nil]
    exact bmStep_dominated sim emb rec acc hacc
  | cons r t ih =>
    intro acc hacc hoth hnodup
    by_cases hh : r.queryHash = rec.queryHash
    · show ((if r.queryHash = rec.queryHash then rec :: t
          else r :: upsertStore rec t).filter
            (fun r => thr ≤ sim r.queryEmbedding emb)).foldl
          (bmStep sim emb) acc = _
      rw [if_pos hh, List.filter_cons_of_pos (by simpa using hpass),
        List.foldl_cons, bmStep_dominated sim emb rec acc hacc]
      refine bmFold_stay sim emb _ _ ?_
      intro r' hr'
      have hr't := List.mem_of_mem_filter hr'
      have hne : r'.queryHash ≠ rec.queryHash := by
        intro he
        have : r.queryHash ∈ t.map (fun rc => rc.queryHash) := by
          rw [hh, ← he]
          exact List.mem_map_of_mem (fun rc => rc.queryHash) hr't
        simp only [List.map_cons, List.nodup_cons] at hnodup
        exact hnodup.1 this
      exact le_of_lt (hoth r' (List.mem_cons_of_mem r hr't) hne)
    · have hrne : sim r.queryEmbedding emb < sim rec.queryEmbedding emb :=
        hoth r (List.mem_cons_self r t) hh
      have hoth' : ∀ r' ∈ t, r'.queryHash ≠ rec.queryHash →
          sim r'.queryEmbedding emb < sim rec.queryEmbedding emb :=
        fun r' hr' => hoth r' (List.mem_cons_of_mem r hr')
      have hnodup' : (t.map (fun rc => rc.queryHash)).Nodup := by
        simp only [List.map_cons, List.nodup_cons] at hnodup
        exact hnodup.2
      show ((if r.queryHash = rec.queryHash then rec :: t
          else r :: upsertStore rec t).filter
            (fun r => thr ≤ sim r.queryEmbedding emb)).foldl
          (bmStep sim emb) acc = _
      rw [if_neg hh]
      by_cases hp : thr ≤ sim r.queryEmbedding emb
      · rw [List.filter_cons_of_pos (by simpa using hp), List.foldl_cons]
        refine ih (bmStep sim emb acc r) ?_ hoth' hnodup'
        intro m hm
        rcases acc with - | m0
        · simp only [bmStep] at hm
          cases hm
          exact hrne
        · simp only [bmStep] at hm
          by_cases hlt : m0.similarity < sim r.queryEmbedding emb
          · rw [if_pos hlt] at hm
            cases hm
            exact hrne
          · rw [if_neg hlt] at hm
            cases hm
            exact hacc _ rfl
      · rw [List.filter_cons_of_neg (by simpa using hp)]
        exact ih acc hacc hoth' hnodup'

theorem bestMatch_upsert {E : Type} (sim : E → E → ℚ) (emb : E) (thr : ℚ)
    (rec : CacheRec E) (s : Store E)
    (hpass : thr ≤ sim rec.queryEmbedding emb)
    (hoth : ∀ r ∈ s, r.queryHash ≠ rec.queryHash →
      sim r.queryEmbedding emb < sim rec.queryEmbedding emb)
    (hnodup : (s.map (fun r => r.queryHash)).Nodup) :
    bestMatch sim (upsertStore rec s) emb thr =
      some (matchEntryRec sim emb rec) :=
  bmFold_upsert sim emb thr rec hpass s none (fun _ h => by cases h) hoth hnodup

/-- When the similarity lookup offers a candidate whose stored query text is
the incoming query itself, the temporal guard passes and get returns the
candidate's response after persisting the bumped hit count. -/
theorem get_hit_of_match {E σ : Type} (B : Backend E σ) (encode : Str → E)
    (thr : ℚ) (q : Str) (m : MatchRec) (s s' s'' : σ)
    (hmatch : B.matchCacheEntry (encode q) thr s = Except.ok (some m, s'))
    (hq : m.query = q)
    (hupd : B.updateHitCount m.queryHash (m.hitCount + 1) s' = Except.ok s'') :
    SemanticCache.get B encode thr q s =
      Except.ok ((some m.response, true), s'') := by
  simp only [SemanticCache.get]
  rw [hmatch]
  dsimp only
  rw [hq]
  have g1 : ¬(findYears q ≠ [] ∧ findYears q ≠ [] ∧
      ¬ sameYearSet (findYears q) (findYears q)) := by
    rintro ⟨-, -, hn⟩; exact hn (sameYearSet_refl _)
  have g2 : ¬((findYears q ≠ [] ∧ findYears q = []) ∨
      (findYears q = [] ∧ findYears q ≠ [])) := by
    rintro (⟨h1, h2⟩ | ⟨h1, h2⟩)
    · exact h1 h2
    · exact h2 h1
  rw [if_neg g1, if_neg g2, hupd]

/-- After upserting a fresh row for q, get on the resulting store hits that
row and returns its response, provided the row clears the threshold and every
row with a different primary key is strictly less similar to the query
embedding (so the fresh row wins the ORDER BY similarity DESC LIMIT 1
selection outright). -/
theorem get_after_upsert {E : Type} (sim : E → E → ℚ) (encode : Str → E)
    (thr : ℚ) (q : Str) (rec : CacheRec E) (s : Store E)
    (hq : rec.query = q)
    (hpass : thr ≤ sim rec.queryEmbedding (encode q))
    (hoth : ∀ r ∈ s, r.queryHash ≠ rec.queryHash →
      sim r.queryEmbedding (encode q) < sim rec.queryEmbedding (encode q))
    (hnodup : (s.map (fun r => r.queryHash)).Nodup) :
    SemanticCache.get (honestBackend sim) encode thr q (upsertStore rec s) =
      Except.ok ((some rec.response, true),
        updateHitStore rec.queryHash (rec.hitCount + 1) (upsertStore rec s)) := by
  refine get_hit_of_match (honestBackend sim) encode thr q
    (matchEntryRec sim (encode q) rec) (upsertStore rec s) (upsertStore rec s)
    _ ?_ hq rfl
  show Except.ok (bestMatch sim (upsertStore rec s) (encode q) thr,
    upsertStore rec s) = _
  rw [bestMatch_upsert sim (encode q) thr rec s hpass hoth hnodup]

/-- Claim C3: put(q, r) immediately followed by get(q) yields (r, true) at the
default threshold 0.98, given the conditions the claim assumes: the encoder
is drift-free (the fresh row's embedding has similarity 1 with the re-encoded
query) and embeddings separate distinct entries (every row under a different
primary key is strictly less similar than 1), with the store satisfying the
query_hash primary-key uniqueness of the cache_entries table. -/
theorem cache_round_trip {E : Type} (sim : E → E → ℚ) (encode : Str → E)
    (hash : Str → Str) (now : Nat) (q r : Str) (s : Store E)
    (hself : sim (encode q) (encode q) = 1)
    (hoth : ∀ rc ∈ s, rc.queryHash ≠ SemanticCache.queryHashOf hash q →
      sim rc.queryEmbedding (encode q) < 1)
    (hnodup : (s.map (fun rc => rc.queryHash)).Nodup) :
    ∃ s₂, (SemanticCache.put (honestBackend sim) encode hash now q r s).bind
        (fun s₁ =>
          SemanticCache.get (honestBackend sim) encode ((49 : ℚ) / 50) q s₁) =
      Except.ok ((some r, true), s₂) := by
  have hpass : (49 : ℚ) / 50 ≤ sim (encode q) (encode q) := by
    rw [hself]; norm_num
  have hoth1 : ∀ rc ∈ s, rc.queryHash ≠ SemanticCache.queryHashOf hash q →
      sim rc.queryEmbedding (encode q) < sim (encode q) (encode q) := by
    rw [hself]; exact hoth
  exact ⟨_, get_after_upsert sim encode ((49 : ℚ) / 50) q
    { queryHash := SemanticCache.queryHashOf hash q, query := q
      queryEmbedding := encode q, response := r, timestamp := now
      hitCount := 1 } s rfl hpass hoth1 hnodup⟩

/-- Witness for claim C3: round trip of the query Apple revenue 2022 with
response A through an empty store, under the constant-similarity-1 encoder
into the unit embedding space. -/
theorem cache_round_trip_witness :
    ∃ s₂, (SemanticCache.put (honestBackend (fun _ _ : Unit => (1 : ℚ)))
        (fun _ => ()) (fun x => x) 0 (str "Apple revenue 2022") (str "A")
        []).bind
        (fun s₁ => SemanticCache.get (honestBackend (fun _ _ : Unit => (1 : ℚ)))
          (fun _ => ()) ((49 : ℚ) / 50) (str "Apple revenue 2022") s₁) =
      Except.ok ((some (str "A"), true), s₂) :=
  cache_round_trip (fun _ _ : Unit => (1 : ℚ)) (fun _ => ()) (fun x => x) 0
    (str "Apple revenue 2022") (str "A") [] rfl
    (fun rc hrc => absurd hrc (List.not_mem_nil rc)) List.nodup_nil

/-- Claim C9: get_stats reports total_hits as the sum of hit_count - 1 over
the rows and hit_rate as total_hits / (total_entries + total_hits) guarded to
0 on a zero denominator; in particular one put followed by two matching gets
from an empty store leaves total_entries 1, total_hits 2 and hit_rate 2/3. -/
theorem get_stats_hit_rate {E : Type} (sim : E → E → ℚ) (encode : Str → E)
    (hash : Str → Str) (now : Nat) (q r : Str)
    (hself : sim (encode q) (encode q) = 1) :
    (∀ store : Store E, store ≠ [] →
      SemanticCache.get_stats (honestBackend sim) store =
        Except.ok
          ({ totalEntries := store.length
             totalHits := (store.map (fun rc => rc.hitCount - 1)).sum
             hitRate :=
               if 0 < (store.length : Int) +
                   (store.map (fun rc => rc.hitCount - 1)).sum then
                 (((store.map (fun rc => rc.hitCount - 1)).sum : Int) : ℚ) /
                   (((store.length : Int) +
                     (store.map (fun rc => rc.hitCount - 1)).sum : Int) : ℚ)
               else 0 }, store)) ∧
    ∃ s₁ s₂ s₃,
      SemanticCache.put (honestBackend sim) encode hash now q r [] =
        Except.ok s₁ ∧
      SemanticCache.get (honestBackend sim) encode ((49 : ℚ) / 50) q s₁ =
        Except.ok ((some r, true), s₂) ∧
      SemanticCache.get (honestBackend sim) encode ((49 : ℚ) / 50) q s₂ =
        Except.ok ((some r, true), s₃) ∧
      SemanticCache.get_stats (honestBackend sim) s₃ =
        Except.ok ({ totalEntries := 1, totalHits := 2,
                     hitRate := 2 / 3 }, s₃) := by
  have hthr : (49 : ℚ) / 50 ≤ sim (encode q) (encode q) := by
    rw [hself]; norm_num
  constructor
  · intro store hne
    have hiso : ¬(store.isEmpty = true) := by
      cases store with
      | nil => exact absurd rfl hne
      | cons a t => simp
    simp only [SemanticCache.get_stats, honestBackend]
    rw [if_neg hiso]
  · have hrec : ∀ hc : Int,
        SemanticCache.get (honestBackend sim) encode ((49 : ℚ) / 50) q
          [{ queryHash := SemanticCache.queryHashOf hash q, query := q
             queryEmbedding := encode q, response := r, timestamp := now
             hitCount := hc }] =
        Except.ok ((some r, true),
          [{ queryHash := SemanticCache.queryHashOf hash q, query := q
             queryEmbedding := encode q, response := r, timestamp := now
             hitCount := hc + 1 }]) := by
      intro hc
      show SemanticCache.get (honestBackend sim) encode ((49 : ℚ) / 50) q
        (upsertStore
          { queryHash := SemanticCache.queryHashOf hash q, query := q
            queryEmbedding := encode q, response := r, timestamp := now
            hitCount := hc } []) = _
      rw [get_after_upsert sim encode ((49 : ℚ) / 50) q
        { queryHash := SemanticCache.queryHashOf hash q, query := q
          queryEmbedding := encode q, response := r, timestamp := now
          hitCount := hc } [] rfl hthr
        (fun rc hrc => absurd hrc (List.not_mem_nil rc)) List.nodup_nil]
      simp [updateHitStore, upsertStore]
    refine ⟨_, _, _, rfl, hrec 1, hrec (1 + 1), ?_⟩
    simp only [SemanticCache.get_stats, honestBackend]
    norm_num

/-- Witness for claim C9 under the constant-similarity-1 encoder into the
unit embedding space. -/
theorem get_stats_hit_rate_witness :
    (∀ store : Store Unit, store ≠ [] →
      SemanticCache.get_stats (honestBackend (fun _ _ : Unit => (1 : ℚ)))
          store =
        Except.ok
          ({ totalEntries := store.length
             totalHits := (store.map (fun rc => rc.hitCount - 1)).sum
             hitRate :=
               if 0 < (store.length : Int) +
                   (store.map (fun rc => rc.hitCount - 1)).sum then
                 (((store.map (fun rc => rc.hitCount - 1)).sum : Int) : ℚ) /
                   (((store.length : Int) +
                     (store.map (fun rc => rc.hitCount - 1)).sum : Int) : ℚ)
               else 0 }, store)) ∧
    ∃ s₁ s₂ s₃,
      SemanticCache.put (honestBackend (fun _ _ : Unit => (1 : ℚ)))
          (fun _ => ()) (fun x => x) 0 (str "Apple revenue") (str "A") [] =
        Except.ok s₁ ∧
      SemanticCache.get (honestBackend (fun _ _ : Unit => (1 : ℚ)))
          (fun _ => ()) ((49 : ℚ) / 50) (str "Apple revenue") s₁ =
        Except.ok ((some (str "A"), true), s₂) ∧
      SemanticCache.get (honestBackend (fun _ _ : Unit => (1 : ℚ)))
          (fun _ => ()) ((49 : ℚ) / 50) (str "Apple revenue") s₂ =
        Except.ok ((some (str "A"), true), s₃) ∧
      SemanticCache.get_stats (honestBackend (fun _ _ : Unit => (1 : ℚ))) s₃ =
        Except.ok ({ totalEntries := 1, totalHits := 2,
                     hitRate := 2 / 3 }, s₃) :=
  get_stats_hit_rate (fun _ _ : Unit => (1 : ℚ)) (fun _ => ()) (fun x => x) 0
    (str "Apple revenue") (str "A") rfl

/-- Claim C6: on an accepted candidate the entry's hit count is bumped by
exactly 1 and the stored response is returned (first conjunct); but the
bump is not fire-and-forget in the code: the update call inside get has no
exception handler, so when persisting the increment fails the whole read
raises instead of still returning the stored response (second conjunct),
contradicting the claim's failure requirement. -/
theorem hit_count_update_failure_fails_read :
    SemanticCache.get (honestBackend (fun _ _ : Unit => (1 : ℚ)))
        (fun _ => ()) ((49 : ℚ) / 50) (str "Apple revenue 2022")
        [{ queryHash := str "h", query := str "Apple revenue 2022"
           queryEmbedding := (), response := str "A", timestamp := 0
           hitCount := 1 }] =
      Except.ok ((some (str "A"), true),
        [{ queryHash := str "h", query := str "Apple revenue 2022"
           queryEmbedding := (), response := str "A", timestamp := 0
           hitCount := 2 }]) ∧
    SemanticCache.get
        (failingUpdateBackend
          ⟨str "h", str "Apple revenue 2022", str "A", 1, 1⟩
          (str "connection reset"))
        (fun _ => ()) ((49 : ℚ) / 50) (str "Apple revenue 2022") () =
      Except.error (str "connection reset") := by
  constructor
  · show SemanticCache.get (honestBackend (fun _ _ : Unit => (1 : ℚ)))
      (fun _ => ()) ((49 : ℚ) / 50) (str "Apple revenue 2022")
      (upsertStore
        { queryHash := str "h", query := str "Apple revenue 2022"
          queryEmbedding := (), response := str "A", timestamp := 0
          hitCount := 1 } []) = _
    rw [get_after_upsert (fun _ _ : Unit => (1 : ℚ)) (fun _ => ())
      ((49 : ℚ) / 50) (str "Apple revenue 2022")
      { queryHash := str "h", query := str "Apple revenue 2022"
        queryEmbedding := (), response := str "A", timestamp := 0
        hitCount := 1 } [] rfl (by norm_num)
      (fun rc hrc => absurd hrc (List.not_mem_nil rc)) List.nodup_nil]
    norm_num [updateHitStore, upsertStore]
  · rfl

/-- Claim C1: a backend error raised during the cache lookup or the cache
write-back inside RAGPipeline.search is not converted to a cache miss: the
calls are unguarded, so the exception propagates to search's caller and no
response envelope is produced, contradicting the stated failure policy. -/
theorem cache_error_propagates_out_of_search :
    searchPipeline (failingMatchBackend (str "connection refused"))
        (fun _ => ()) (fun x => x) ((49 : ℚ) / 50) 0 (fun _ => [])
        (fun _ => []) (fun _ _ => Except.error (str "no provider"))
        (fun _ _ => Except.error (str "no provider")) [] ⟨2026, 0⟩
        (str "Apple revenue") false () =
      Except.error (str "connection refused") ∧
    searchPipeline (failingUpsertBackend (str "connection refused"))
        (fun _ => ()) (fun x => x) ((49 : ℚ) / 50) 0 (fun _ => [])
        (fun _ => []) (fun _ _ => Except.error (str "no provider"))
        (fun _ _ => Except.error (str "no provider")) [] ⟨2026, 0⟩
        (str "Apple revenue") false () =
      Except.error (str "connection refused") := by
  constructor
  · rfl
  · rfl

theorem shouldUseWebSearch_iff (a : Bool) (routing : Str) (hrel rcnt : Bool) :
    shouldUseWebSearch a routing hrel rcnt = true ↔
      (a = true ∧ (routing = str "web_search" ∨
        (hrel = false ∧ rcnt = true))) := by
  cases a <;> cases hrel <;> cases rcnt <;> simp [shouldUseWebSearch]

/-- Claim C4: on the cache-miss path the web searcher is invoked exactly when
the caller permits web search and either the routing decision is web_search
or no retrieved document scores above 0.7 while the query carries a year
token at least current_year - 1. The first conjunct characterizes the
trigger, the second shows that with the trigger off the result of search does
not depend on the web searcher at all (it is never consulted), and the third
gives the claimed special case: a relevant document plus a local_search
routing keeps the trigger off whatever recent years the query contains. -/
theorem web_search_trigger {E σ : Type} (B : Backend E σ) (encode : Str → E)
    (hash : Str → Str) (thr : ℚ) (now : Nat)
    (retrieve : Str → List (Doc × ℚ)) (w₁ w₂ : Str → Str)
    (tier1 tier2 : Str → Str → Except Str Str) (apiKey : Str) (env : Env)
    (query : Str) (allowWeb : Bool) (s s' : σ) (c : Option Str)
    (hmiss : SemanticCache.get B encode thr query s =
      Except.ok ((c, false), s')) :
    (shouldUseWebSearch allowWeb (route_query query env)
        (hasRelevantDocs (retrieve query))
        (containsRecentYear query env.year) = true ↔
      (allowWeb = true ∧ (route_query query env = str "web_search" ∨
        (hasRelevantDocs (retrieve query) = false ∧
          containsRecentYear query env.year = true)))) ∧
    (shouldUseWebSearch allowWeb (route_query query env)
        (hasRelevantDocs (retrieve query))
        (containsRecentYear query env.year) = false →
      searchPipeline B encode hash thr now retrieve w₁ tier1 tier2 apiKey
          env query allowWeb s =
        searchPipeline B encode hash thr now retrieve w₂ tier1 tier2 apiKey
          env query allowWeb s) ∧
    (hasRelevantDocs (retrieve query) = true →
      route_query query env = str "local_search" →
      shouldUseWebSearch allowWeb (route_query query env)
        (hasRelevantDocs (retrieve query))
        (containsRecentYear query env.year) = false) := by
  refine ⟨shouldUseWebSearch_iff _ _ _ _, ?_, ?_⟩
  · intro htrig
    simp only [searchPipeline]
    rw [hmiss]
    dsimp only
    rw [htrig]
    simp
  · intro h1 h2
    rw [h1, h2]
    simp [shouldUseWebSearch]
    intro _
    decide

/-- Witness for claim C4 at a concrete cache-miss instance over the unit
backend with no retrieved documents. -/
theorem web_search_trigger_witness :
    (shouldUseWebSearch true (route_query (str "Apple revenue") ⟨2026, 0⟩)
        (hasRelevantDocs []) (containsRecentYear (str "Apple revenue") 2026) =
          true ↔
      (true = true ∧ (route_query (str "Apple revenue") ⟨2026, 0⟩ =
          str "web_search" ∨
        (hasRelevantDocs ([] : List (Doc × ℚ)) = false ∧
          containsRecentYear (str "Apple revenue") 2026 = true)))) ∧
    (shouldUseWebSearch true (route_query (str "Apple revenue") ⟨2026, 0⟩)
        (hasRelevantDocs []) (containsRecentYear (str "Apple revenue") 2026) =
          false →
      searchPipeline missBackend (fun _ => ()) (fun x => x) ((49 : ℚ) / 50) 0
          (fun _ => []) (fun _ => str "w1")
          (fun _ _ => Except.error (str "no provider"))
          (fun _ _ => Except.error (str "no provider")) [] ⟨2026, 0⟩
          (str "Apple revenue") true () =
        searchPipeline missBackend (fun _ => ()) (fun x => x) ((49 : ℚ) / 50) 0
          (fun _ => []) (fun _ => str "w2")
          (fun _ _ => Except.error (str "no provider"))
          (fun _ _ => Except.error (str "no provider")) [] ⟨2026, 0⟩
          (str "Apple revenue") true ()) ∧
    (hasRelevantDocs ([] : List (Doc × ℚ)) = true →
      route_query (str "Apple revenue") ⟨2026, 0⟩ = str "local_search" →
      shouldUseWebSearch true (route_query (str "Apple revenue") ⟨2026, 0⟩)
        (hasRelevantDocs []) (containsRecentYear (str "Apple revenue") 2026) =
          false) :=
  web_search_trigger missBackend (fun _ => ()) (fun x => x) ((49 : ℚ) / 50) 0
    (fun _ => []) (fun _ => str "w1") (fun _ => str "w2")
    (fun _ _ => Except.error (str "no provider"))
    (fun _ _ => Except.error (str "no provider")) [] ⟨2026, 0⟩
    (str "Apple revenue") true () () none rfl

/-- Claim C10: every cache-miss completion of search writes the exact answer
string of the returned envelope to the cache as a fresh hit_count-1 row keyed
by the normalized query hash, before returning; this covers degraded answers
as well since the generation parameters are arbitrary, so a later similar
query can be served the degraded text as a hit. -/
theorem miss_path_caches_envelope_answer {E : Type} (sim : E → E → ℚ)
    (encode : Str → E) (hash : Str → Str) (thr : ℚ) (now : Nat)
    (retrieve : Str → List (Doc × ℚ)) (webFn : Str → Str)
    (tier1 tier2 : Str → Str → Except Str Str) (apiKey : Str) (env : Env)
    (query : Str) (allowWeb : Bool) (s s' : Store E) (c : Option Str)
    (hmiss : SemanticCache.get (honestBackend sim) encode thr query s =
      Except.ok ((c, false), s')) :
    ∃ envl : Envelope,
      searchPipeline (honestBackend sim) encode hash thr now retrieve webFn
          tier1 tier2 apiKey env query allowWeb s =
        Except.ok (envl,
          upsertStore
            { queryHash := SemanticCache.queryHashOf hash query
              query := query
              queryEmbedding := encode query
              response := generateAnswer tier1 tier2 apiKey query
                (retrieve query)
                (if shouldUseWebSearch allowWeb (route_query query env)
                    (hasRelevantDocs (retrieve query))
                    (containsRecentYear query env.year)
                  then webFn query else [])
              timestamp := now
              hitCount := 1 } s') ∧
      envl.answer = some (generateAnswer tier1 tier2 apiKey query
        (retrieve query)
        (if shouldUseWebSearch allowWeb (route_query query env)
            (hasRelevantDocs (retrieve query))
            (containsRecentYear query env.year)
          then webFn query else [])) ∧
      envl.cacheHit = false := by
  simp only [searchPipeline]
  rw [hmiss]
  dsimp only
  exact ⟨_, rfl, rfl, rfl⟩

/-- Witness for claim C10: a miss over the empty honest store with no
provider configured; the degraded no-information answer is the one written
back. -/
theorem miss_path_caches_envelope_answer_witness :
    ∃ envl : Envelope,
      searchPipeline (honestBackend (fun _ _ : Unit => (1 : ℚ)))
          (fun _ => ()) (fun x => x) ((49 : ℚ) / 50) 0 (fun _ => [])
          (fun _ => str "w") (fun _ _ => Except.error (str "no provider"))
          (fun _ _ => Except.error (str "no provider")) [] ⟨2026, 0⟩
          (str "hello") false [] =
        Except.ok (envl,
          upsertStore
            { queryHash := SemanticCache.queryHashOf (fun x => x) (str "hello")
              query := str "hello"
              queryEmbedding := ()
              response := generateAnswer
                (fun _ _ => Except.error (str "no provider"))
                (fun _ _ => Except.error (str "no provider")) [] (str "hello")
                [] (if shouldUseWebSearch false
                      (route_query (str "hello") ⟨2026, 0⟩)
                      (hasRelevantDocs [])
                      (containsRecentYear (str "hello") 2026)
                    then str "w" else [])
              timestamp := 0
              hitCount := 1 } []) ∧
      envl.answer = some (generateAnswer
        (fun _ _ => Except.error (str "no provider"))
        (fun _ _ => Except.error (str "no provider")) [] (str "hello") []
        (if shouldUseWebSearch false (route_query (str "hello") ⟨2026, 0⟩)
            (hasRelevantDocs []) (containsRecentYear (str "hello") 2026)
          then str "w" else [])) ∧
      envl.cacheHit = false :=
  miss_path_caches_envelope_answer (fun _ _ : Unit => (1 : ℚ)) (fun _ => ())
    (fun x => x) ((49 : ℚ) / 50) 0 (fun _ => []) (fun _ => str "w")
    (fun _ _ => Except.error (str "no provider"))
    (fun _ _ => Except.error (str "no provider")) [] ⟨2026, 0⟩ (str "hello")
    false [] [] none rfl

/-- Claim C5, counterexample: the fact scan skips lines that start with
Document or Web Information, so a context whose single line is a Document
line full of financial signal tokens yields no key facts and the heuristic
answer has no key-facts section, while the claim's reading of the scan
(every line containing a signal token is listed) would list that line. -/
theorem relevant_facts_skip_document_lines :
    relevantFacts (str "Document (Apple): revenue $1 billion") = [] ∧
    relevantFactsClaim (str "Document (Apple): revenue $1 billion") =
      [str "Document (Apple): revenue $1 billion"] ∧
    containsSub
      (enhancedMockAnswer (str "q") (str "Document (Apple): revenue $1 billion"))
      (str "Key facts") = false := by
  refine ⟨by decide, by decide, by decide⟩

/-- Claim C5 (amended): when no API key is configured or both generation
tiers fail, the answer is the local heuristic one (and, everything being
total, nothing is raised); the heuristic's key facts are the first at most 3
nonempty context lines that do not start with Document or Web Information
and whose lowercasing contains a financial signal token, stripped, in
order. -/
theorem degraded_answer_heuristic (tier1 tier2 : Str → Str → Except Str Str)
    (apiKey query context err₁ err₂ : Str)
    (hfail : apiKey = [] ∨ (tier1 query context = Except.error err₁ ∧
      tier2 query context = Except.error err₂)) :
    generateOpenaiAnswer tier1 tier2 apiKey query context =
      enhancedMockAnswer query context ∧
    relevantFacts context = ((splitOnChar '\n' context).filter (fun line =>
        line ≠ [] && !(startsWith line (str "Document"))
          && !(startsWith line (str "Web Information"))
          && signalTerms.any (fun t => containsSub (lower line) t))).map
        strip ∧
    ((relevantFacts context).take 3).length ≤ 3 := by
  refine ⟨?_, rfl, ?_⟩
  · rcases hfail with hk | ⟨h1, h2⟩
    · simp [generateOpenaiAnswer, hk]
    · by_cases hk : apiKey = []
      · simp [generateOpenaiAnswer, hk]
      · simp [generateOpenaiAnswer, hk, h1, h2]
  · exact List.length_take_le 3 (relevantFacts context)

/-- Witness for the amended claim C5: both provider tiers fail on a one-line
financial context, and the heuristic answer is returned. -/
theorem degraded_answer_heuristic_witness :
    generateOpenaiAnswer (fun _ _ => Except.error (str "down"))
        (fun _ _ => Except.error (str "down")) (str "sk-test")
        (str "q") (str "revenue was $5 billion") =
      enhancedMockAnswer (str "q") (str "revenue was $5 billion") ∧
    relevantFacts (str "revenue was $5 billion") =
      ((splitOnChar '\n' (str "revenue was $5 billion")).filter (fun line =>
        line ≠ [] && !(startsWith line (str "Document"))
          && !(startsWith line (str "Web Information"))
          && signalTerms.any (fun t => containsSub (lower line) t))).map
        strip ∧
    ((relevantFacts (str "revenue was $5 billion")).take 3).length ≤ 3 :=
  degraded_answer_heuristic (fun _ _ => Except.error (str "down"))
    (fun _ _ => Except.error (str "down")) (str "sk-test") (str "q")
    (str "revenue was $5 billion") (str "down") (str "down")
    (Or.inr ⟨rfl, rfl⟩)

end Rag
